import Mathlib

/-!
Verification of the HeyCare voice note-taking application core logic.

Shallow embedding of:
- the field reconciliation in `handleRecordingComplete` and the save guard in
  `handleSavePatient` (src/src/pages/Index.tsx),
- the gap-filling merge `mergePatientData` and the heuristic transcript parser
  `parseTranscriptForPatientInfo` (src/unnamed/part_000),
- the recording session state machine of the `VoiceRecorder` component
  (src/VoiceRecorder.tsx), including the stale-closure semantics of the
  React `recordingState` value captured by the recognition event handlers.

Strings are modelled as Lean `String`; JavaScript string operations used by the
code (`trim`, `toLowerCase`, `includes`, `split`, `parseInt`, regex `match`
with the global flag) are embedded as executable functions over `List Char`,
restricted to the ASCII behaviour the application exercises.
-/

set_option maxRecDepth 4000

/-! ## JavaScript string primitives -/

/-- Whitespace characters removed by JavaScript `String.prototype.trim`
(ASCII part plus NBSP, which covers the inputs of this application). -/
def isTrimWs (c : Char) : Bool :=
  c = ' ' || c = '\t' || c = '\n' || c = '\r' || c = '\x0b' || c = '\x0c' || c = '\xa0'

/-- JavaScript `s.trim()`: strip leading and trailing whitespace. -/
def jsTrim (s : String) : String :=
  ⟨((s.data.dropWhile isTrimWs).reverse.dropWhile isTrimWs).reverse⟩

/-- ASCII lower-casing of one character, as `String.prototype.toLowerCase`
acts on ASCII input. -/
def lowC (c : Char) : Char :=
  if c.toNat ≥ 65 && c.toNat ≤ 90 then Char.ofNat (c.toNat + 32) else c

/-- JavaScript `s.toLowerCase()` on ASCII input. -/
def lowerStr (s : String) : String := ⟨s.data.map lowC⟩

/-- Exact prefix test on character lists. -/
def startsWithL : List Char → List Char → Bool
  | [], _ => true
  | _ :: _, [] => false
  | p :: ps, c :: cs => p = c && startsWithL ps cs

/-- Substring containment on character lists (JavaScript `includes`). -/
def containsSub (needle : List Char) : List Char → Bool
  | [] => needle.isEmpty
  | c :: rest => startsWithL needle (c :: rest) || containsSub needle rest

/-- JavaScript `hay.includes(needle)` (case-sensitive). -/
def jsIncludes (needle hay : String) : Bool := containsSub needle.data hay.data

/-- Join a list of strings with a separator (JavaScript `Array.join`). -/
def joinSep (sep : String) : List String → String
  | [] => ""
  | [x] => x
  | x :: y :: rest => x ++ sep ++ joinSep sep (y :: rest)

/-- JavaScript `parseInt`: skip leading whitespace, optional sign, then read a
decimal digit run; `none` models the `NaN` result when no digit is found. -/
def jsParseInt (s : String) : Option Int :=
  let l := s.data.dropWhile isTrimWs
  let (sign, l) : Int × List Char :=
    match l with
    | '-' :: rest => (-1, rest)
    | '+' :: rest => (1, rest)
    | rest => (1, rest)
  let digits := l.takeWhile (fun c => '0' ≤ c && c ≤ '9')
  if digits.isEmpty then none
  else some (sign * (digits.foldl (fun acc c => acc * 10 + (c.toNat - 48)) 0 : Nat))

/-! ## Data model

`PatientData` is the structured record of `src/unnamed/part_000` (PatientForm);
the optional TypeScript field `formattedTranscript?` is modelled as a `String`
that is empty when absent, matching how every consumer normalizes it with
`|| ''`. `ExtractionResult` is the analyzer output consumed by
`handleRecordingComplete`: every field may be absent (`undefined`), hence
`Option String`. `ParsedPatientInfo` is the heuristic parser output type. -/

structure PatientData where
  id : String
  patientName : String
  age : String
  gender : String
  symptoms : String
  medicalHistory : String
  diagnosis : String
  treatmentPlan : String
  transcript : String
  formattedTranscript : String
  createdAt : String
  bloodPressure : String
  heartRate : String
  temperature : String
  respiratoryRate : String
  oxygenSaturation : String
  weight : String
  height : String
  deriving DecidableEq, Repr

structure ExtractionResult where
  patientName : Option String
  age : Option String
  gender : Option String
  symptoms : Option String
  medicalHistory : Option String
  diagnosis : Option String
  treatmentPlan : Option String
  formattedTranscript : Option String
  bloodPressure : Option String
  heartRate : Option String
  temperature : Option String
  respiratoryRate : Option String
  oxygenSaturation : Option String
  weight : Option String
  height : Option String
  deriving DecidableEq, Repr

structure ParsedPatientInfo where
  patientName : Option String
  age : Option String
  gender : Option String
  symptoms : Option String
  medicalHistory : Option String
  diagnosis : Option String
  treatmentPlan : Option String
  deriving DecidableEq, Repr

/-- The empty patient record created at the start of a session
(`Index.tsx`, initial `currentPatient` state; `createdAt` abstracted). -/
def emptyPatientAt (now : String) : PatientData :=
  ⟨"", "", "", "", "", "", "", "", "", "", now, "", "", "", "", "", "", ""⟩

/-- An extraction result with every field absent. -/
def emptyExtraction : ExtractionResult :=
  ⟨none, none, none, none, none, none, none, none, none, none, none, none, none, none, none⟩

/-! ## Field reconciliation (Index.tsx, handleRecordingComplete, lines 177-204) -/

/-- `mergeValue` from `handleRecordingComplete`:
`if (newVal && newVal !== 'N/A') return newVal; return currentVal;`
An absent (`undefined`) or empty incoming value is falsy. -/
def mergeValue (currentVal : String) (newVal : Option String) : String :=
  match newVal with
  | some v => if v ≠ "" ∧ v ≠ "N/A" then v else currentVal
  | none => currentVal

/-- The success branch of `handleRecordingComplete`: build `updatedPatient`
from `currentPatient`, the extracted info, and the final transcript.
`transcript` is set to the final transcript and `formattedTranscript` to
`extractedInfo.formattedTranscript || ''`; the fourteen structured fields go
through `mergeValue`; `id` and `createdAt` are kept by the object spread. -/
def reconcile (currentPatient : PatientData) (extractedInfo : ExtractionResult)
    (finalTranscript : String) : PatientData :=
  { currentPatient with
    transcript := finalTranscript
    formattedTranscript := extractedInfo.formattedTranscript.getD ""
    patientName := mergeValue currentPatient.patientName extractedInfo.patientName
    age := mergeValue currentPatient.age extractedInfo.age
    gender := mergeValue currentPatient.gender extractedInfo.gender
    symptoms := mergeValue currentPatient.symptoms extractedInfo.symptoms
    medicalHistory := mergeValue currentPatient.medicalHistory extractedInfo.medicalHistory
    diagnosis := mergeValue currentPatient.diagnosis extractedInfo.diagnosis
    treatmentPlan := mergeValue currentPatient.treatmentPlan extractedInfo.treatmentPlan
    bloodPressure := mergeValue currentPatient.bloodPressure extractedInfo.bloodPressure
    heartRate := mergeValue currentPatient.heartRate extractedInfo.heartRate
    temperature := mergeValue currentPatient.temperature extractedInfo.temperature
    respiratoryRate := mergeValue currentPatient.respiratoryRate extractedInfo.respiratoryRate
    oxygenSaturation := mergeValue currentPatient.oxygenSaturation extractedInfo.oxygenSaturation
    weight := mergeValue currentPatient.weight extractedInfo.weight
    height := mergeValue currentPatient.height extractedInfo.height }

/-! ## Heuristic gap-filling merge (src/unnamed/part_000, mergePatientData) -/

/-- One field of `mergePatientData`:
`existing.f || parsed.f || existing.f` with JavaScript truthiness
(empty string and `undefined` are falsy). -/
def heurMergeField (ex : String) (pv : Option String) : String :=
  if ex ≠ "" then ex
  else match pv with
    | some v => if v ≠ "" then v else ex
    | none => ex

/-- `mergePatientData(existing, parsed)`: spread of `existing` overridden on
the seven parsed fields by `existing.f || parsed.f || existing.f`. -/
def mergePatientData (existing : PatientData) (parsed : ParsedPatientInfo) : PatientData :=
  { existing with
    patientName := heurMergeField existing.patientName parsed.patientName
    age := heurMergeField existing.age parsed.age
    gender := heurMergeField existing.gender parsed.gender
    symptoms := heurMergeField existing.symptoms parsed.symptoms
    medicalHistory := heurMergeField existing.medicalHistory parsed.medicalHistory
    diagnosis := heurMergeField existing.diagnosis parsed.diagnosis
    treatmentPlan := heurMergeField existing.treatmentPlan parsed.treatmentPlan }

/-! ## Heuristic parser (src/unnamed/part_000, parseTranscriptForPatientInfo)

The parser runs four regular expressions with `transcript.match(pattern)` under
the `g` flag. Under the global flag, JavaScript `match` returns the array of
whole-match strings (capture groups are not exposed), scanning left to right
and resuming after each match. The four patterns are hand-compiled below into
executable matchers with JavaScript semantics (ordered alternation with
backtracking, greedy quantifiers); each matcher, applied at a position,
returns the number of characters of the match starting there, or `none`. -/

/-- JavaScript `\s` on the ASCII range. -/
def isJsWs (c : Char) : Bool :=
  c = ' ' || c = '\t' || c = '\n' || c = '\r' || c = '\x0b' || c = '\x0c'

/-- `[a-z]` under the `i` flag: an ASCII letter. -/
def isAsciiLetter (c : Char) : Bool :=
  let l := lowC c
  'a' ≤ l && l ≤ 'z'

/-- `\d`: an ASCII decimal digit. -/
def isAsciiDigit (c : Char) : Bool := '0' ≤ c && c ≤ '9'

/-- Length of the maximal prefix satisfying `p`, with the remaining suffix. -/
def spanCount (p : Char → Bool) (s : List Char) : Nat × List Char :=
  ((s.takeWhile p).length, s.dropWhile p)

/-- Case-insensitive literal match at the head of `s`; the literal is given in
lower case; returns the number of characters consumed. -/
def litCI : List Char → List Char → Option Nat
  | [], _ => some 0
  | _ :: _, [] => none
  | p :: ps, c :: cs =>
    if lowC c = p then (litCI ps cs).map (fun n => n + 1) else none

/-- First literal of the list (ordered alternation) matching at the head. -/
def firstLit (s : List Char) : List String → Option Nat
  | [] => none
  | lit :: rest =>
    match litCI lit.data s with
    | some n => some n
    | none => firstLit s rest

/-- `(?:\s+[a-z]+)*`, greedy: total length consumed by repeated
(whitespace then letters) blocks. The fuel bounds the recursion; each
iteration consumes at least two characters. -/
def wordStar : Nat → List Char → Nat
  | 0, _ => 0
  | fuel + 1, s =>
    let (nws, s1) := spanCount isJsWs s
    if nws = 0 then 0
    else
      let (nl, s2) := spanCount isAsciiLetter s1
      if nl = 0 then 0 else nws + nl + wordStar fuel s2

/-- `\s+([a-z]+(?:\s+[a-z]+)*)`: the common tail of both name patterns. -/
def nameTail (s : List Char) : Option Nat :=
  let (nws, s1) := spanCount isJsWs s
  if nws = 0 then none
  else
    let (nl, s2) := spanCount isAsciiLetter s1
    if nl = 0 then none else some (nws + nl + wordStar s2.length s2)

/-- Ordered alternation of case-insensitive literals, each followed by the
given tail; backtracks to the next alternative when the tail fails. -/
def firstAltTail (s : List Char) (tail : List Char → Option Nat) :
    List String → Option Nat
  | [] => none
  | lit :: rest =>
    match litCI lit.data s with
    | some n =>
      match tail (s.drop n) with
      | some m => some (n + m)
      | none => firstAltTail s tail rest
    | none => firstAltTail s tail rest

/-- Pattern 1 of the name extraction:
regex `(?:patient|my name is|i'm|i am|this is)\s+([a-z]+(?:\s+[a-z]+)*)`,
flags `gi`; match length at the head of `s`. -/
def tryNameP1 (s : List Char) : Option Nat :=
  firstAltTail s nameTail ["patient", "my name is", "i\x27m", "i am", "this is"]

/-- Pattern 2 of the name extraction: regex
`(?:name|called?)\s+([a-z]+(?:\s+[a-z]+)*)`, flags `gi`. Note the second
alternative is the literal `calle` followed by an optional `d` (the `?`
scopes over the single letter); the optional letter backtracks. -/
def tryNameP2 (s : List Char) : Option Nat :=
  match litCI "name".data s with
  | some n =>
    match nameTail (s.drop n) with
    | some m => some (n + m)
    | none => tryNameP2Calle s
  | none => tryNameP2Calle s
where
  tryNameP2Calle (s : List Char) : Option Nat :=
    match litCI "calle".data s with
    | some n =>
      let withD : Option Nat :=
        match s.drop n with
        | c :: _ =>
          if lowC c = 'd' then (nameTail (s.drop (n + 1))).map (fun m => m + n + 1)
          else none
        | [] => none
      match withD with
      | some r => some r
      | none => (nameTail (s.drop n)).map (fun m => m + n)
    | none => none

/-- The four year-suffix literals, in the alternation order of the source. -/
def yearSuffixes : List String := ["years old", "year old", "years", "year"]

/-- Pattern 1 of the age extraction: regex
`(?:i'm|i am|age|years old)\s*(\d{1,3})\s*(?:years old|year old|years|year)?`,
flags `gi`. After the digits, trailing whitespace is consumed greedily and the
year suffix is optional. -/
def tryAgeP1 (s : List Char) : Option Nat :=
  firstAltTail s ageTail ["i\x27m", "i am", "age", "years old"]
where
  ageTail (s : List Char) : Option Nat :=
    let (nws, s1) := spanCount isJsWs s
    let (nd, _) := spanCount isAsciiDigit s1
    if nd = 0 then none
    else
      let k := min nd 3
      let s2 := s1.drop k
      let (nws2, s3) := spanCount isJsWs s2
      match firstLit s3 yearSuffixes with
      | some m => some (nws + k + nws2 + m)
      | none => some (nws + k + nws2)

/-- Pattern 2 of the age extraction: regex
`(\d{1,3})\s*(?:years old|year old|years|year)`, flags `gi`. The digit count
backtracks from the greedy maximum because the year suffix is mandatory. -/
def tryAgeP2 (s : List Char) : Option Nat :=
  let (nd, _) := spanCount isAsciiDigit s
  if nd = 0 then none else tryK (min nd 3) s
where
  tryK : Nat → List Char → Option Nat
    | 0, _ => none
    | k + 1, s =>
      let s2 := s.drop (k + 1)
      let (nws, s3) := spanCount isJsWs s2
      match firstLit s3 yearSuffixes with
      | some m => some (k + 1 + nws + m)
      | none => tryK k s

/-- JavaScript `String.prototype.match` with the `g` flag: scan left to right,
collect the whole-match strings, resume after each match (all four patterns
always consume at least one character). Returns `[]` for the `null` result. -/
def gMatchesAux (tryAt : List Char → Option Nat) : Nat → List Char → List String
  | 0, _ => []
  | _, [] => []
  | fuel + 1, c :: rest =>
    match tryAt (c :: rest) with
    | some (len + 1) =>
      ⟨(c :: rest).take (len + 1)⟩ :: gMatchesAux tryAt fuel ((c :: rest).drop (len + 1))
    | _ => gMatchesAux tryAt fuel rest

/-- `transcript.match(pattern)` under the `g` flag, as a list of matches. -/
def gMatches (tryAt : List Char → Option Nat) (s : String) : List String :=
  gMatchesAux tryAt s.data.length s.data

/-- One iteration of the name-pattern loop: `nameMatch = transcript.match(p)`;
`if (nameMatch && nameMatch[1])` — under the `g` flag `nameMatch[1]` is the
second whole match — trim it and accept it when its length is in (1, 50). -/
def nameCandidate (tryAt : List Char → Option Nat) (transcript : String) :
    Option String :=
  match (gMatches tryAt transcript).get? 1 with
  | some m =>
    if m ≠ "" then
      let name := jsTrim m
      if 1 < name.length ∧ name.length < 50 then some name else none
    else none
  | none => none

/-- One iteration of the age-pattern loop: `ageMatch[1]` (the second whole
match) is fed to `parseInt` and accepted when the value is in (0, 150). -/
def ageCandidate (tryAt : List Char → Option Nat) (transcript : String) :
    Option String :=
  match (gMatches tryAt transcript).get? 1 with
  | some m =>
    if m ≠ "" then
      match jsParseInt m with
      | some a => if 0 < a ∧ a < 150 then some (toString a) else none
      | none => none
    else none
  | none => none

/-- The gender heuristic on the lower-cased transcript: female cues first,
then male cues, else unset. -/
def genderHeur (lower : String) : Option String :=
  if jsIncludes "female" lower || jsIncludes "woman" lower
      || jsIncludes "she/her" lower then some "Female"
  else if jsIncludes "male" lower || jsIncludes "man" lower
      || jsIncludes "he/him" lower then some "Male"
  else none

/-- `transcript.split(/[.!?]+/)`: split on maximal runs of sentence
punctuation, keeping empty pieces at the ends exactly as JavaScript does. -/
def splitSentAux : Nat → List Char → List Char → List String
  | 0, cur, _ => [⟨cur.reverse⟩]
  | _, cur, [] => [⟨cur.reverse⟩]
  | fuel + 1, cur, c :: rest =>
    if c = '.' || c = '!' || c = '?' then
      (⟨cur.reverse⟩ : String) ::
        splitSentAux fuel [] (rest.dropWhile (fun d => d = '.' || d = '!' || d = '?'))
    else splitSentAux fuel (c :: cur) rest

/-- The sentence list of the transcript. -/
def splitSentences (transcript : String) : List String :=
  splitSentAux (transcript.data.length + 1) [] transcript.data

/-- One keyword category: collect (trimmed) every sentence whose lower-cased
text contains some keyword, join with `". "`, trim; `none` when no sentence
matched (the field is left unset). -/
def collectSentences (keywords : List String) (sentences : List String) :
    Option String :=
  let picked := (sentences.filter
    (fun sen => keywords.any (fun k => jsIncludes k (lowerStr sen)))).map jsTrim
  if picked.isEmpty then none else some (jsTrim (joinSep ". " picked))

def symptomKeywords : List String :=
  ["pain", "hurt", "ache", "sore", "headache", "fever", "cough", "cold", "flu",
   "nausea", "vomiting", "diarrhea", "constipation", "bleeding", "swelling",
   "rash", "itching", "burning", "numbness", "tingling", "weakness", "fatigue",
   "dizzy", "shortness of breath", "chest pain", "back pain", "stomach pain",
   "sinus", "congestion", "runny nose", "sneezing", "allergies"]

def historyKeywords : List String :=
  ["history", "previous", "before", "surgery", "operation", "medication",
   "allergic", "allergy", "diabetes", "hypertension", "blood pressure",
   "heart", "cancer", "family history", "genetic", "chronic", "condition"]

def diagnosisKeywords : List String :=
  ["diagnosis", "diagnosed", "condition", "syndrome", "disease", "infection",
   "inflammation", "disorder", "pneumonia", "bronchitis", "arthritis",
   "migraine", "anxiety", "depression", "strain", "sprain"]

def treatmentKeywords : List String :=
  ["treatment", "medication", "prescription", "take", "rest", "follow up",
   "therapy", "exercise", "diet", "avoid", "recommend", "suggest",
   "antibiotics", "pain relief", "ibuprofen", "acetaminophen", "aspirin"]

/-- `parseTranscriptForPatientInfo(transcript)`: name (two patterns, first
acceptable candidate wins), age (two patterns), gender, and the four keyword
categories over the sentence split. -/
def parseTranscriptForPatientInfo (transcript : String) : ParsedPatientInfo :=
  let lower := lowerStr transcript
  let sents := splitSentences transcript
  { patientName := (nameCandidate tryNameP1 transcript).orElse
      (fun _ => nameCandidate tryNameP2 transcript)
    age := (ageCandidate tryAgeP1 transcript).orElse
      (fun _ => ageCandidate tryAgeP2 transcript)
    gender := genderHeur lower
    symptoms := collectSentences symptomKeywords sents
    medicalHistory := collectSentences historyKeywords sents
    diagnosis := collectSentences diagnosisKeywords sents
    treatmentPlan := collectSentences treatmentKeywords sents }

/-! ## Recording session state machine (src/VoiceRecorder.tsx)

The component keeps `recordingState` in React state, the recognition instance
in a ref (`recognitionRef`), and the accumulated final text in a ref
(`fullTranscriptRef`); `transcript` is the displayed combination of final and
interim text. The handlers installed on a recognition instance
(`onend` and the callback of its `setTimeout`) close over the `recordingState`
value of the render in which `startRecording` ran; updating the state later
does not change that captured value, while ref reads always see the current
ref. The model therefore stores the captured value inside the recognition
instance. The model covers the supported-browser, permission-granted path;
the pause-time analysis call is asynchronous and does not take part in the
state transition, so it is not modelled here. -/

inductive RecState where
  | idle
  | recording
  | paused
  deriving DecidableEq, Repr

/-- A speech recognition instance: the `recordingState` value captured by its
event-handler closures at creation, and whether its stream is running. -/
structure Recog where
  captured : RecState
  active : Bool
  deriving DecidableEq, Repr

/-- The recorder component state: React state, refs, and the list of
`onRecordingComplete` emissions (the session outputs). -/
structure RState where
  recordingState : RecState
  recognitionRef : Option Recog
  fullTranscript : String
  displayTranscript : String
  outputs : List String
  deriving DecidableEq, Repr

/-- The initial component state. -/
def initR : RState := ⟨.idle, none, "", "", []⟩

/-- `startRecording(isResume)` (lines 60-168), happy path: install a fresh
recognition whose handlers capture `cap` (the render-scope `recordingState`
at the call), start it, set the state to recording, and clear both transcript
accumulators unless resuming. -/
def startRecM (isResume : Bool) (cap : RecState) (s : RState) : RState :=
  let s1 := { s with recognitionRef := some ⟨cap, true⟩, recordingState := .recording }
  if isResume then s1 else { s1 with fullTranscript := "", displayTranscript := "" }

/-- The Start button invokes `startRecording(false)`; the handler comes from
the latest render, so the captured value is the current state. The function
itself has no source-state guard. -/
def userStart (s : RState) : RState := startRecM false s.recordingState s

/-- `pauseRecording` (lines 180-204): guarded on `recordingState ===
'recording'`; stops the recognition stream (the ref is kept) and moves to
paused. The pause-time analysis that may follow is asynchronous and changes
no recording state. -/
def userPause (s : RState) : RState :=
  if s.recordingState = .recording then
    { s with
      recognitionRef := match s.recognitionRef with
        | some r => some { r with active := false }
        | none => none
      recordingState := .paused }
  else s

/-- `resumeRecording` (lines 206-212): guarded on `recordingState ===
'paused'`; sets the state to recording and calls `startRecording(true)`.
The closures of the new recognition capture the render-scope value, which is
still `paused` at that point. -/
def userResume (s : RState) : RState :=
  if s.recordingState = .paused then startRecM true s.recordingState s else s

/-- `stopRecording` (lines 170-178): stop and clear the recognition ref, set
the state to idle, and emit the trimmed accumulated transcript through
`onRecordingComplete`. The function has no source-state guard. -/
def userStop (s : RState) : RState :=
  { s with
    recognitionRef := none
    recordingState := .idle
    outputs := s.outputs ++ [jsTrim s.fullTranscript] }

/-- `recognition.onresult` (lines 88-109): append each final segment plus a
space to the accumulated transcript and display the trimmed combination with
the interim text. -/
def onResultEv (finals : List String) (interim : String) (s : RState) : RState :=
  let ft := finals.foldl (fun acc t => acc ++ t ++ " ") s.fullTranscript
  { s with fullTranscript := ft, displayTranscript := jsTrim (ft ++ interim) }

/-- The `onend` handler of recognition `r` (lines 137-151): both the outer
check and the check inside the `setTimeout` read the captured (stale)
`recordingState`; the ref read inside the timeout sees the current ref, and a
restart calls `start()` on the currently referenced recognition. -/
def onEndHandler (r : Recog) (s : RState) : RState :=
  if r.captured = .recording then
    match s.recognitionRef with
    | some cur =>
      if r.captured = .recording then
        { s with recognitionRef := some { cur with active := true } }
      else s
    | none => s
  else s

/-- The currently referenced recognition stream ends on its own (for example
after a silence timeout): its stream goes inactive and its `onend` handler
runs. -/
def selfEnd (s : RState) : RState :=
  match s.recognitionRef with
  | none => s
  | some r => onEndHandler r { s with recognitionRef := some { r with active := false } }

/-! ## Index page handlers (src/src/pages/Index.tsx) -/

/-- A user notice raised through the toast hook. -/
structure Toast where
  title : String
  description : String
  destructive : Bool
  deriving DecidableEq, Repr

/-- The notice of the analysis-failure branch ("saved for manual entry"). -/
def analysisFailedToast : Toast :=
  ⟨"Analysis failed",
   "Could not analyze transcript with AI. Transcript saved for manual entry.",
   true⟩

/-- The rejection notice of `handleSavePatient` for a missing name. -/
def nameRequiredToast : Toast :=
  ⟨"Patient name required",
   "Please enter the patient\x27s name before saving.",
   true⟩

/-- The catch branch of `handleRecordingComplete` (lines 236-246): notify the
user and keep only the raw transcript:
`setCurrentPatient(prev => ({ ...prev, transcript: finalTranscript }))`. -/
def handleAnalysisFailure (prev : PatientData) (finalTranscript : String) :
    PatientData × Toast :=
  ({ prev with transcript := finalTranscript }, analysisFailedToast)

/-- The page state touched by `handleSavePatient`. -/
structure AppState where
  currentPatient : PatientData
  savedNotes : List PatientData
  currentTranscript : String
  activeTab : String
  deriving DecidableEq, Repr

/-- A write issued to the record store. -/
inductive StoreOp where
  | insertP (fields : PatientData)
  | updateP (id : String) (fields : PatientData)
  deriving DecidableEq, Repr

/-- `handleSavePatient` (lines 258-365), store calls assumed to succeed:
reject with a notice when the trimmed patient name is empty (no store write,
no state change); otherwise update when an id is present, else insert, then
reload the notes (`reloaded` stands for the fetched list), reset the current
patient (`now` stands for the new creation timestamp), clear the transcript
and switch to the notes tab. -/
def handleSavePatient (now : String) (reloaded : List PatientData)
    (st : AppState) : AppState × List StoreOp × List Toast :=
  if jsTrim st.currentPatient.patientName = "" then
    (st, [], [nameRequiredToast])
  else
    let op := if st.currentPatient.id ≠ "" then
        StoreOp.updateP st.currentPatient.id st.currentPatient
      else StoreOp.insertP st.currentPatient
    let note : Toast := if st.currentPatient.id ≠ "" then
        ⟨"Patient information updated",
         "Updated information for " ++ st.currentPatient.patientName ++ ".", false⟩
      else
        ⟨"Patient information saved",
         "Saved information for " ++ st.currentPatient.patientName ++ ".", false⟩
    ({ st with
        currentPatient := emptyPatientAt now
        savedNotes := reloaded
        currentTranscript := ""
        activeTab := "notes" },
     [op], [note])

/-! ## Specification-side definitions

These follow the wording of the specification (sections 4.2, 4.3 and the
claims), to be compared with the embedded source functions above. -/

/-- The reconciliation rule of spec section 4.2, for one field: when the
incoming value is present, non-empty and not the "N/A" sentinel the result is
the incoming value, otherwise the result is the current value. -/
def specFieldRule (cur : String) (inc : Option String) (res : String) : Prop :=
  match inc with
  | some v => if v ≠ "" ∧ v ≠ "N/A" then res = v else res = cur
  | none => res = cur

/-- The heuristic merge rule of spec section 4.3, for one field: the existing
value when non-empty, otherwise the parsed value when present, otherwise the
existing value. -/
def specMergeHeuristicRule (ex : String) (pv : Option String) (res : String) : Prop :=
  if ex ≠ "" then res = ex
  else match pv with
    | some v => res = v
    | none => res = ex

/-- No field among the fourteen merged by `reconcile` holds the "N/A"
sentinel. -/
def sentinelFree (p : PatientData) : Prop :=
  p.patientName ≠ "N/A" ∧ p.age ≠ "N/A" ∧ p.gender ≠ "N/A" ∧
  p.symptoms ≠ "N/A" ∧ p.medicalHistory ≠ "N/A" ∧ p.diagnosis ≠ "N/A" ∧
  p.treatmentPlan ≠ "N/A" ∧ p.bloodPressure ≠ "N/A" ∧ p.heartRate ≠ "N/A" ∧
  p.temperature ≠ "N/A" ∧ p.respiratoryRate ≠ "N/A" ∧
  p.oxygenSaturation ≠ "N/A" ∧ p.weight ≠ "N/A" ∧ p.height ≠ "N/A"

instance (p : PatientData) : Decidable (sentinelFree p) := by
  unfold sentinelFree; infer_instance

/-- A female cue of the gender heuristic is present (case-insensitive
substring search over the whole transcript). -/
def femCue (t : String) : Bool :=
  jsIncludes "female" (lowerStr t) || jsIncludes "woman" (lowerStr t)
    || jsIncludes "she/her" (lowerStr t)

/-- A male cue of the gender heuristic is present. -/
def maleCue (t : String) : Bool :=
  jsIncludes "male" (lowerStr t) || jsIncludes "man" (lowerStr t)
    || jsIncludes "he/him" (lowerStr t)

/-! ## Helper lemmas -/

/-- `mergeValue` satisfies the per-field reconciliation rule of the spec. -/
theorem mergeValue_spec (cur : String) (inc : Option String) :
    specFieldRule cur inc (mergeValue cur inc) := by
  cases inc with
  | none => simp [specFieldRule, mergeValue]
  | some v =>
    by_cases h : v ≠ "" ∧ v ≠ "N/A" <;> simp [specFieldRule, mergeValue, h]

/-- `mergeValue` never introduces the sentinel. -/
theorem mergeValue_ne_sentinel (cur : String) (inc : Option String)
    (h : cur ≠ "N/A") : mergeValue cur inc ≠ "N/A" := by
  cases inc with
  | none => simpa [mergeValue] using h
  | some v =>
    by_cases hc : v ≠ "" ∧ v ≠ "N/A"
    · simp [mergeValue, hc, hc.2]
    · simpa [mergeValue, hc] using h

/-- `mergeValue` is idempotent in its incoming argument. -/
theorem mergeValue_idem (cur : String) (inc : Option String) :
    mergeValue (mergeValue cur inc) inc = mergeValue cur inc := by
  cases inc with
  | none => rfl
  | some v =>
    by_cases h : v ≠ "" ∧ v ≠ "N/A" <;> simp [mergeValue, h]

/-- `heurMergeField` satisfies the heuristic merge rule of the spec. -/
theorem heurMergeField_spec (ex : String) (pv : Option String) :
    specMergeHeuristicRule ex pv (heurMergeField ex pv) := by
  by_cases h : ex ≠ ""
  · simp [specMergeHeuristicRule, heurMergeField, h]
  · cases pv with
    | none => simp [specMergeHeuristicRule, heurMergeField, h]
    | some v =>
      by_cases hv : v ≠ "" <;>
        simp_all [specMergeHeuristicRule, heurMergeField]

/-! ## Claim theorems -/

/-- C2: for every existing patient record and every heuristic parse result,
`mergePatientData` never overwrites a non-empty existing field: for each of
the seven merged fields, the result equals the existing value when the
existing value is non-empty, otherwise the parsed value when present,
otherwise the existing value. -/
theorem mergePatientData_fills_gaps_only (e : PatientData) (p : ParsedPatientInfo) :
    specMergeHeuristicRule e.patientName p.patientName (mergePatientData e p).patientName ∧
    specMergeHeuristicRule e.age p.age (mergePatientData e p).age ∧
    specMergeHeuristicRule e.gender p.gender (mergePatientData e p).gender ∧
    specMergeHeuristicRule e.symptoms p.symptoms (mergePatientData e p).symptoms ∧
    specMergeHeuristicRule e.medicalHistory p.medicalHistory
      (mergePatientData e p).medicalHistory ∧
    specMergeHeuristicRule e.diagnosis p.diagnosis (mergePatientData e p).diagnosis ∧
    specMergeHeuristicRule e.treatmentPlan p.treatmentPlan
      (mergePatientData e p).treatmentPlan :=
  ⟨heurMergeField_spec _ _, heurMergeField_spec _ _, heurMergeField_spec _ _,
   heurMergeField_spec _ _, heurMergeField_spec _ _, heurMergeField_spec _ _,
   heurMergeField_spec _ _⟩

/-- C3: reconciliation is idempotent: merging the same extraction result (and
the same final transcript) twice produces the same record as merging it
once, field for field. -/
theorem reconcile_idempotent (c : PatientData) (i : ExtractionResult) (t : String) :
    reconcile (reconcile c i t) i t = reconcile c i t := by
  simp [reconcile, mergeValue_idem]

/-- C6: when stop-time analysis fails, the raw final transcript is attached
to the record while every other field is left exactly as before, and the
non-fatal "saved for manual entry" notice is surfaced. -/
theorem analysis_failure_preserves_fields (prev : PatientData) (t : String) :
    (handleAnalysisFailure prev t).1.transcript = t ∧
    (handleAnalysisFailure prev t).1.id = prev.id ∧
    (handleAnalysisFailure prev t).1.patientName = prev.patientName ∧
    (handleAnalysisFailure prev t).1.age = prev.age ∧
    (handleAnalysisFailure prev t).1.gender = prev.gender ∧
    (handleAnalysisFailure prev t).1.symptoms = prev.symptoms ∧
    (handleAnalysisFailure prev t).1.medicalHistory = prev.medicalHistory ∧
    (handleAnalysisFailure prev t).1.diagnosis = prev.diagnosis ∧
    (handleAnalysisFailure prev t).1.treatmentPlan = prev.treatmentPlan ∧
    (handleAnalysisFailure prev t).1.formattedTranscript = prev.formattedTranscript ∧
    (handleAnalysisFailure prev t).1.createdAt = prev.createdAt ∧
    (handleAnalysisFailure prev t).1.bloodPressure = prev.bloodPressure ∧
    (handleAnalysisFailure prev t).1.heartRate = prev.heartRate ∧
    (handleAnalysisFailure prev t).1.temperature = prev.temperature ∧
    (handleAnalysisFailure prev t).1.respiratoryRate = prev.respiratoryRate ∧
    (handleAnalysisFailure prev t).1.oxygenSaturation = prev.oxygenSaturation ∧
    (handleAnalysisFailure prev t).1.weight = prev.weight ∧
    (handleAnalysisFailure prev t).1.height = prev.height ∧
    (handleAnalysisFailure prev t).2 = analysisFailedToast :=
  ⟨rfl, rfl, rfl, rfl, rfl, rfl, rfl, rfl, rfl, rfl, rfl, rfl, rfl, rfl, rfl,
   rfl, rfl, rfl, rfl⟩

/-- C10: the heuristic merge modifies at most the seven parsed fields; the
identifier, creation timestamp, transcript, formatted transcript, and every
vitals field of the existing record are returned unchanged. -/
theorem mergePatientData_frame (e : PatientData) (p : ParsedPatientInfo) :
    (mergePatientData e p).id = e.id ∧
    (mergePatientData e p).createdAt = e.createdAt ∧
    (mergePatientData e p).transcript = e.transcript ∧
    (mergePatientData e p).formattedTranscript = e.formattedTranscript ∧
    (mergePatientData e p).bloodPressure = e.bloodPressure ∧
    (mergePatientData e p).heartRate = e.heartRate ∧
    (mergePatientData e p).temperature = e.temperature ∧
    (mergePatientData e p).respiratoryRate = e.respiratoryRate ∧
    (mergePatientData e p).oxygenSaturation = e.oxygenSaturation ∧
    (mergePatientData e p).weight = e.weight ∧
    (mergePatientData e p).height = e.height :=
  ⟨rfl, rfl, rfl, rfl, rfl, rfl, rfl, rfl, rfl, rfl, rfl⟩

/-- C1, counterexample: reconciliation can leave the "N/A" sentinel in the
record. A current field already holding "N/A" survives an absent incoming
value, and an incoming `formattedTranscript` of "N/A" is stored verbatim
because that field is assigned `incoming.formattedTranscript || ""` rather
than going through `mergeValue`. -/
theorem reconcile_stores_sentinel :
    (reconcile { emptyPatientAt "" with patientName := "N/A" }
      { emptyExtraction with formattedTranscript := some "N/A" } "t").patientName
        = "N/A" ∧
    (reconcile { emptyPatientAt "" with patientName := "N/A" }
      { emptyExtraction with formattedTranscript := some "N/A" } "t").formattedTranscript
        = "N/A" := by
  decide

/-- C1, amended: reconciliation is field-by-field on the fourteen structured
fields (incoming wins when present, non-empty and not "N/A"; otherwise the
current value is kept), the transcript is set to the final transcript and the
formatted transcript to the incoming one (empty when absent) unconditionally,
and the sentinel is never introduced into the fourteen merged fields: a
record free of "N/A" there stays free of it. -/
theorem reconcile_field_rule (c : PatientData) (i : ExtractionResult) (t : String) :
    (specFieldRule c.patientName i.patientName (reconcile c i t).patientName ∧
     specFieldRule c.age i.age (reconcile c i t).age ∧
     specFieldRule c.gender i.gender (reconcile c i t).gender ∧
     specFieldRule c.symptoms i.symptoms (reconcile c i t).symptoms ∧
     specFieldRule c.medicalHistory i.medicalHistory (reconcile c i t).medicalHistory ∧
     specFieldRule c.diagnosis i.diagnosis (reconcile c i t).diagnosis ∧
     specFieldRule c.treatmentPlan i.treatmentPlan (reconcile c i t).treatmentPlan ∧
     specFieldRule c.bloodPressure i.bloodPressure (reconcile c i t).bloodPressure ∧
     specFieldRule c.heartRate i.heartRate (reconcile c i t).heartRate ∧
     specFieldRule c.temperature i.temperature (reconcile c i t).temperature ∧
     specFieldRule c.respiratoryRate i.respiratoryRate (reconcile c i t).respiratoryRate ∧
     specFieldRule c.oxygenSaturation i.oxygenSaturation (reconcile c i t).oxygenSaturation ∧
     specFieldRule c.weight i.weight (reconcile c i t).weight ∧
     specFieldRule c.height i.height (reconcile c i t).height) ∧
    ((reconcile c i t).transcript = t ∧
     (reconcile c i t).formattedTranscript = i.formattedTranscript.getD "") ∧
    (sentinelFree c → sentinelFree (reconcile c i t)) := by
  refine ⟨⟨mergeValue_spec _ _, mergeValue_spec _ _, mergeValue_spec _ _,
    mergeValue_spec _ _, mergeValue_spec _ _, mergeValue_spec _ _,
    mergeValue_spec _ _, mergeValue_spec _ _, mergeValue_spec _ _,
    mergeValue_spec _ _, mergeValue_spec _ _, mergeValue_spec _ _,
    mergeValue_spec _ _, mergeValue_spec _ _⟩, ⟨rfl, rfl⟩, ?_⟩
  rintro ⟨h1, h2, h3, h4, h5, h6, h7, h8, h9, h10, h11, h12, h13, h14⟩
  exact ⟨mergeValue_ne_sentinel _ _ h1, mergeValue_ne_sentinel _ _ h2,
    mergeValue_ne_sentinel _ _ h3, mergeValue_ne_sentinel _ _ h4,
    mergeValue_ne_sentinel _ _ h5, mergeValue_ne_sentinel _ _ h6,
    mergeValue_ne_sentinel _ _ h7, mergeValue_ne_sentinel _ _ h8,
    mergeValue_ne_sentinel _ _ h9, mergeValue_ne_sentinel _ _ h10,
    mergeValue_ne_sentinel _ _ h11, mergeValue_ne_sentinel _ _ h12,
    mergeValue_ne_sentinel _ _ h13, mergeValue_ne_sentinel _ _ h14⟩

/-- Witness for `reconcile_field_rule` at a concrete sentinel-free record. -/
theorem reconcile_field_rule_witness :
    sentinelFree (reconcile (emptyPatientAt "") emptyExtraction "t") :=
  (reconcile_field_rule (emptyPatientAt "") emptyExtraction "t").2.2 (by decide)

/-- C9: saving a patient whose name trims to the empty string performs no
store write and leaves the page state (current record, saved notes, current
transcript) unchanged; only the rejection notice is raised. -/
theorem save_rejects_blank_name (now : String) (reloaded : List PatientData)
    (st : AppState) (h : jsTrim st.currentPatient.patientName = "") :
    handleSavePatient now reloaded st = (st, [], [nameRequiredToast]) := by
  simp [handleSavePatient, h]

/-- Witness for `save_rejects_blank_name` at a whitespace-only name. -/
theorem save_rejects_blank_name_witness :
    handleSavePatient "2025-01-01"
      [] ⟨{ emptyPatientAt "" with patientName := "   " }, [], "tr", "record"⟩
      = (⟨{ emptyPatientAt "" with patientName := "   " }, [], "tr", "record"⟩,
         [], [nameRequiredToast]) :=
  save_rejects_blank_name "2025-01-01" []
    ⟨{ emptyPatientAt "" with patientName := "   " }, [], "tr", "record"⟩ (by decide)

/-- C4: the auto-restart in `recognition.onend` is dead code. The handler
closure captures the `recordingState` of the render in which the recognition
was created, which is `idle` for a fresh start and `paused` for a resume —
never `recording` — so when the stream ends on its own while the state
machine is in Recording, no restart happens (the referenced stream stays
inactive although the state is still `recording`); this contradicts the
claimed transparent restart. The second half of the claim does hold: an end
event arriving after `stopRecording` has cleared the stream reference changes
nothing. -/
theorem onend_restart_dead :
    (selfEnd (userStart initR)).recordingState = RecState.recording ∧
    (selfEnd (userStart initR)).recognitionRef = some ⟨RecState.idle, false⟩ ∧
    (selfEnd (userResume (userPause (userStart initR)))).recordingState
      = RecState.recording ∧
    (selfEnd (userResume (userPause (userStart initR)))).recognitionRef
      = some ⟨RecState.paused, false⟩ ∧
    selfEnd (userStop (userStart initR)) = userStop (userStart initR) := by
  decide

/-- C5, counterexample: `startRecording` and `stopRecording` have no
source-state guard. Calling `startRecording` while Paused (illegal per the
claim) switches the state to Recording and erases the committed text, and a
second `stopRecording` issued from Idle (illegal) emits the stale transcript
through `onRecordingComplete` a second time. -/
theorem unguarded_start_stop_counterexample :
    (userPause (onResultEv ["hello."] "" (userStart initR))).recordingState
      = RecState.paused ∧
    (userPause (onResultEv ["hello."] "" (userStart initR))).fullTranscript
      = "hello. " ∧
    (userStart (userPause (onResultEv ["hello."] "" (userStart initR)))).recordingState
      = RecState.recording ∧
    (userStart (userPause (onResultEv ["hello."] "" (userStart initR)))).fullTranscript
      = "" ∧
    (userStop (userStop (userPause (onResultEv ["hello."] "" (userStart initR))))).outputs
      = ["hello.", "hello."] := by
  decide

/-- C5, amended: `pauseRecording` outside Recording and `resumeRecording`
outside Paused are no-ops (the whole recorder state, including both transcript
accumulators and the emitted outputs, is unchanged); `startRecording` and
`stopRecording` are not guarded — a stop from Idle still emits the trimmed
accumulated transcript, and a fresh start from any state moves to Recording
and clears the committed text. In the UI those two calls are unreachable
outside their valid states because the Start and Stop buttons are disabled. -/
theorem pause_resume_guarded (s : RState) :
    (s.recordingState ≠ RecState.recording → userPause s = s) ∧
    (s.recordingState ≠ RecState.paused → userResume s = s) ∧
    (s.recordingState = RecState.idle →
      (userStop s).outputs = s.outputs ++ [jsTrim s.fullTranscript]) ∧
    ((userStart s).recordingState = RecState.recording ∧
     (userStart s).fullTranscript = "") := by
  refine ⟨fun h => ?_, fun h => ?_, fun _ => rfl, rfl, rfl⟩
  · simp [userPause, h]
  · simp [userResume, h]

/-- Witness for `pause_resume_guarded` at the initial (Idle) state. -/
theorem pause_resume_guarded_witness :
    userPause initR = initR ∧ userResume initR = initR ∧
    (userStop initR).outputs = initR.outputs ++ [jsTrim initR.fullTranscript] :=
  ⟨(pause_resume_guarded initR).1 (by decide),
   (pause_resume_guarded initR).2.1 (by decide),
   (pause_resume_guarded initR).2.2.1 (by decide)⟩

/-- C7: on the example transcript the heuristic parser extracts no patient
name and no age — `String.match` under the global flag returns whole-match
strings, so `nameMatch[1]`/`ageMatch[1]` designate a second match that does
not exist here (the name pattern produces the single whole match
"I am John Smith") — while the symptoms field does receive the
headache/fever sentence. This contradicts the documented intent
(capture the name span and the age digits, validated by the length and range
checks in the code). -/
theorem heuristic_example_eval :
    (parseTranscriptForPatientInfo
      "I am John Smith, 34 years old. I have a bad headache and fever.").patientName
        = none ∧
    (parseTranscriptForPatientInfo
      "I am John Smith, 34 years old. I have a bad headache and fever.").age
        = none ∧
    (parseTranscriptForPatientInfo
      "I am John Smith, 34 years old. I have a bad headache and fever.").symptoms
        = some "I have a bad headache and fever" ∧
    gMatches tryNameP1 "I am John Smith, 34 years old. I have a bad headache and fever."
        = ["I am John Smith"] ∧
    gMatches tryAgeP2 "I am John Smith, 34 years old. I have a bad headache and fever."
        = ["34 years old"] := by
  decide

/-- C8: the gender heuristic checks the female cues on the lower-cased
transcript first — when one is present the gender is Female regardless of
male cues; otherwise a male cue yields Male; otherwise the gender is left
unset. -/
theorem gender_heuristic_order (t : String) :
    (femCue t = true → (parseTranscriptForPatientInfo t).gender = some "Female") ∧
    (femCue t = false → maleCue t = true →
      (parseTranscriptForPatientInfo t).gender = some "Male") ∧
    (femCue t = false → maleCue t = false →
      (parseTranscriptForPatientInfo t).gender = none) := by
  have e : (parseTranscriptForPatientInfo t).gender = genderHeur (lowerStr t) := rfl
  refine ⟨fun hf => ?_, fun hf hm => ?_, fun hf hm => ?_⟩ <;>
    rw [e] <;>
    unfold genderHeur <;>
    unfold femCue at hf <;>
    simp only [hf] <;>
    try rfl
  · unfold maleCue at hm
    simp [hm]
  · unfold maleCue at hm
    simp [hm]

/-- Witness for `gender_heuristic_order` on a transcript with both cues:
the male cue is present but the female cue wins. -/
theorem gender_heuristic_order_witness :
    maleCue "a man and a woman" = true ∧
    (parseTranscriptForPatientInfo "a man and a woman").gender = some "Female" :=
  ⟨by decide, (gender_heuristic_order "a man and a woman").1 (by decide)⟩
